import Mathlib

/-!
Shallow embedding of `host/lib/transport/udp_wsa_zero_copy.cpp` (UHD WSA UDP
zero-copy transport): the managed receive/send buffers, the pending receive
queue, the two-phase receive path of `get_recv_buff`, the round-robin send
index of `get_send_buff`, and the construction-time send-frame check.

Modelling conventions:
- Machine integers: `size_t` is `Nat`; `ssize_t` (the return of `::recv`) is
  `Int`, and the implicit `ssize_t → size_t` conversion in
  `mrb->get_new(::recv(...))` is `sizeT` below (64-bit wraparound).
- The `bounded_buffer<udp_zero_copy_asio_mrb*>` pending queue is modelled from
  the spec (its code lives in a header outside `src/`): a FIFO list of buffer
  ids; `push_with_haste` appends, and `pop_with_timed_wait` succeeds exactly
  when the queue is non-empty (no concurrent pusher exists during one call).
- `wait_for_recv_ready` (in `udp_common.hpp`, outside `src/`) is modelled from
  the spec: it blocks until the socket is readable or the given timeout
  elapses.  The environment `RecvEnvT` records at what time (measured from the
  start of the wait) the socket becomes readable, if ever.
- The per-buffer WSA event object is a `Bool` (`eventSet`); completion of an
  asynchronous send during a wait is an environment input (`completes`).
- Timeouts and durations are `ℚ` (the source uses `double`).
-/

/-- The implicit `ssize_t → size_t` conversion applied when a `::recv` return
value is passed to `udp_zero_copy_asio_mrb::get_new(size_t)`. -/
def sizeT (r : Int) : Nat := (r % (2 ^ 64 : Int)).toNat

/-- State of `udp_zero_copy_asio_mrb`: a fixed slice identity (`_mem`) and the
current valid length `_len`. -/
structure Mrb where
  id : Nat
  len : Nat
deriving DecidableEq, Repr

namespace Mrb

/-- `udp_zero_copy_asio_mrb::release` (source lines 59-63): if `_len == 0`
return immediately; otherwise push this buffer onto the pending queue
(`push_with_haste`) and set `_len = 0`. -/
def release (b : Mrb) (pending : List Nat) : Mrb × List Nat :=
  if b.len = 0 then (b, pending)
  else ({ b with len := 0 }, pending ++ [b.id])

/-- `udp_zero_copy_asio_mrb::get_new` (source lines 65-68): set `_len = len`
and hand the buffer out as a managed handle. -/
def get_new (b : Mrb) (len : Nat) : Mrb := { b with len := len }

end Mrb

/-- State of `udp_zero_copy_asio_msb`: the committed flag, the WSABUF length
`_wsa_buff.len`, the WSA event signal state, and the fixed `_frame_size`. -/
structure Msb where
  committed : Bool
  len : Nat
  eventSet : Bool
  frameSize : Nat
deriving DecidableEq, Repr

namespace Msb

/-- `udp_zero_copy_asio_msb::commit` (source lines 102-108): no-op when
already committed; otherwise mark committed, set `_wsa_buff.len = len`, and
either signal the event at once (`len == 0`) or submit a `WSASend`.  The
second component records whether a `WSASend` was submitted. -/
def commit (b : Msb) (len : Nat) : Msb × Bool :=
  if b.committed then (b, false)
  else if len = 0 then ({ b with committed := true, len := len, eventSet := true }, false)
  else ({ b with committed := true, len := len }, true)

/-- The `udp_zero_copy_asio_msb` constructor (source lines 88-96): event
created unsignaled, `_committed(false)`, then `this->commit(0)` to make the
buffer available via `get_new`. -/
def construct (frameSize : Nat) : Msb :=
  (commit { committed := false, len := 0, eventSet := false, frameSize := frameSize } 0).1

/-- `udp_zero_copy_asio_msb::get_new` (source lines 110-121): wait on the
buffer's event up to the timeout; on `WSA_WAIT_TIMEOUT` return a null pointer
and change nothing.  Otherwise `index++` (the caller's rotating index, passed
by reference), reset the event, clear the committed flag, and reset
`_wsa_buff.len` to `_frame_size`.  `completes` is the environment input
saying whether the pending asynchronous send signals the event during the
wait; the wait succeeds when the event is already set or completion arrives
in time. -/
def get_new (b : Msb) (completes : Bool) (index : Nat) : Option Msb × Msb × Nat :=
  if b.eventSet || completes then
    (some { b with eventSet := false, committed := false, len := b.frameSize },
     { b with eventSet := false, committed := false, len := b.frameSize },
     index + 1)
  else (none, b, index)

end Msb

/-- Send-side orchestrator state: `_msb_pool` and `_next_send_buff_index`. -/
structure SendState where
  pool : List Msb
  nextIdx : Nat
deriving DecidableEq, Repr

/-- Trace of one `get_send_buff` call: the handle (or none on timeout), the
index of the buffer the call targeted, and the state afterwards. -/
structure SendCall where
  handle : Option Msb
  target : Nat
  after : SendState
deriving DecidableEq, Repr

/-- Placeholder for the (never taken, by the `nextIdx ≤ pool.length`
invariant) out-of-range vector access. -/
def defaultMsb : Msb := { committed := false, len := 0, eventSet := false, frameSize := 0 }

/-- `udp_zero_copy_wsa_impl::get_send_buff` (source lines 250-253): wrap
`_next_send_buff_index` to 0 when it has reached `_num_send_frames`
(`pool.length`), then call `get_new` on that buffer, handing it the rotating
index by reference. -/
def get_send_buff (s : SendState) (completes : Bool) : SendCall :=
  let i := if s.nextIdx = s.pool.length then 0 else s.nextIdx
  let b := s.pool.getD i defaultMsb
  let r := Msb.get_new b completes i
  { handle := r.1, target := i, after := { pool := s.pool.set i r.2.1, nextIdx := r.2.2 } }

/-- The send-side state right after transport construction (source lines
206-211 allocate `num_send_frames` managed send buffers; the index starts
at 0). -/
def freshSendState (n frameSize : Nat) : SendState :=
  { pool := List.replicate n (Msb.construct frameSize), nextIdx := 0 }

/-- Run a sequence of `get_send_buff` calls (one environment flag per call)
and collect the target indices of the successful acquisitions. -/
def runSend : SendState → List Bool → List Nat
  | _, [] => []
  | s, c :: cs =>
    let call := get_send_buff s c
    if call.handle.isSome then call.target :: runSend call.after cs
    else runSend call.after cs

/-- Environment of one `get_recv_buff` call: the time the queue pop consumed,
the return values of the two `::recv` attempts, and when (from the start of
the readiness wait) the socket becomes readable, if ever. -/
structure RecvEnvT where
  popElapsed : ℚ
  recv1 : Int
  readyAt : Option ℚ
  recv2 : Int
deriving DecidableEq, Repr

/-- Modelled from the spec: `wait_for_recv_ready` (declared in
`udp_common.hpp`, outside `src/`) reports readiness exactly when the socket
becomes readable within the budget it is given. -/
def readyWithin : Option ℚ → ℚ → Bool
  | none, _ => false
  | some t, budget => if t ≤ budget then true else false

/-- Modelled from the spec: how long the `wait_for_recv_ready` call blocks,
given its budget — until readiness, capped at the budget. -/
def waitDur : Option ℚ → ℚ → ℚ
  | none, budget => budget
  | some t, budget => min t budget

/-- Trace of one `get_recv_buff` call: the handle (buffer id and reported
length) or none, the pending queue afterwards, the budget the code passed to
`wait_for_recv_ready` (none when that phase was not reached), how long that
wait blocked, and whether the second `::recv` attempt was performed. -/
structure RecvCallTrace where
  result : Option (Nat × Nat)
  queueAfter : List Nat
  readyWaitBudget : Option ℚ
  readyWaitDuration : Option ℚ
  secondReadDone : Bool
deriving DecidableEq, Repr

/-- `udp_zero_copy_wsa_impl::get_recv_buff` (source lines 227-241):
pop a pending buffer with the caller's timeout (succeeds iff the queue is
non-empty); non-blocking `::recv`, returned via `get_new(ret)` when
`ret > 0`; otherwise `wait_for_recv_ready(_sock_fd, timeout)` — note the
code passes the caller's FULL `timeout`, not a remainder — and on readiness
one more `::recv` whose return value is passed to `get_new` unconditionally;
on overall timeout the buffer is pushed back and a null pointer returned. -/
def get_recv_buff (timeout : ℚ) (env : RecvEnvT) (q : List Nat) : RecvCallTrace :=
  match q with
  | [] =>
    { result := none, queueAfter := [],
      readyWaitBudget := none, readyWaitDuration := none, secondReadDone := false }
  | mrb :: rest =>
    if 0 < env.recv1 then
      { result := some (mrb, sizeT env.recv1), queueAfter := rest,
        readyWaitBudget := none, readyWaitDuration := none, secondReadDone := false }
    else if readyWithin env.readyAt timeout then
      { result := some (mrb, sizeT env.recv2), queueAfter := rest,
        readyWaitBudget := some timeout,
        readyWaitDuration := some (waitDur env.readyAt timeout),
        secondReadDone := true }
    else
      { result := none, queueAfter := rest ++ [mrb],
        readyWaitBudget := some timeout,
        readyWaitDuration := some (waitDur env.readyAt timeout),
        secondReadDone := false }

/-- Transport state produced by a successful construction. -/
structure UdpTransport where
  recv_frame_size : Nat
  num_recv_frames : Nat
  send_frame_size : Nat
  num_send_frames : Nat
  pending_recv_buffs : List Nat
  msb_pool : List Msb
  next_send_buff_index : Nat
deriving DecidableEq, Repr

/-- The `udp_zero_copy_wsa_impl` constructor (source lines 148-212), reduced
to its deterministic core: `UHD_ASSERT_THROW(_num_send_frames <=
WSA_MAXIMUM_WAIT_EVENTS)` (line 165) throws — construction fails with an
error and no transport value exists — when the send-frame count exceeds the
platform wait-set ceiling (passed as `maxWaitEvents`; 64 on Windows);
otherwise every receive buffer is pushed onto the pending queue (lines
199-204) and every send buffer is constructed in its seeded state (lines
207-211), with the rotating index starting at 0. -/
def constructTransport (maxWaitEvents rfs nrf sfs nsf : Nat) :
    Except String UdpTransport :=
  if nsf ≤ maxWaitEvents then
    Except.ok
      { recv_frame_size := rfs, num_recv_frames := nrf,
        send_frame_size := sfs, num_send_frames := nsf,
        pending_recv_buffs := List.range nrf,
        msb_pool := List.replicate nsf (Msb.construct sfs),
        next_send_buff_index := 0 }
  else Except.error "assertion failed: num_send_frames <= WSA_MAXIMUM_WAIT_EVENTS"

/-! ## Claim C1 -/

/-- C1 counterexample: the claim requires that a buffer released exactly once
after a successful fill re-enters the queue *for every fill length, including
a fill of length 0*.  It fails at fill length 0: `get_new 0` sets `_len = 0`,
so the subsequent `release` takes the `_len == 0` early return and the buffer
is never pushed — the queue stays empty and the buffer leaves circulation. -/
theorem C1_counterexample :
    (Mrb.release (Mrb.get_new { id := 0, len := 5 } 0) []).2 = [] ∧
    ¬ (0 ∈ (Mrb.release (Mrb.get_new { id := 0, len := 5 } 0) []).2) := by
  decide

/-- C1 (amended): `release()` is a no-op when the current length is already
0, and otherwise sets the length to 0 and pushes the buffer back onto the
completion queue; hence a buffer released exactly once after a fill of
POSITIVE length re-enters the queue, a fill of length 0 leaves the following
release a no-op (the buffer does not re-enter the queue), and a second
consecutive release adds no duplicate queue entry and changes no state. -/
theorem C1_amended_thm (b : Mrb) (q : List Nat) (L : Nat) :
    (b.len = 0 → Mrb.release b q = (b, q)) ∧
    (b.len ≠ 0 → Mrb.release b q = ({ b with len := 0 }, q ++ [b.id])) ∧
    (0 < L → (Mrb.release (Mrb.get_new b L) q).2 = q ++ [b.id]) ∧
    ((Mrb.release (Mrb.get_new b 0) q).2 = q) ∧
    (Mrb.release (Mrb.release b q).1 (Mrb.release b q).2 = Mrb.release b q) := by
  refine ⟨?_, ?_, ?_, ?_, ?_⟩
  · intro h; simp [Mrb.release, h]
  · intro h; simp [Mrb.release, h]
  · intro h; simp [Mrb.release, Mrb.get_new, Nat.pos_iff_ne_zero.mp h]
  · simp [Mrb.release, Mrb.get_new]
  · by_cases h : b.len = 0 <;> simp [Mrb.release, h]

/-- C1 witness: concrete run of the amended theorem — a buffer filled with 3
bytes and released once re-enters the (initially empty) queue. -/
theorem C1_witness :
    (Mrb.release (Mrb.get_new { id := 0, len := 0 } 3) []).2 = [] ++ [0] :=
  (C1_amended_thm { id := 0, len := 0 } [] 3).2.2.1 (by decide)

/-! ## Claim C2 -/

/-- Concrete environment for the C2 counterexample: the queue pop consumed 1
time unit of the caller's 2-unit timeout, the first non-blocking `::recv`
found no data, and the socket never becomes readable. -/
def c2env : RecvEnvT := { popElapsed := 1, recv1 := 0, readyAt := none, recv2 := 0 }

/-- C2 counterexample: the claim says the readiness wait is bounded by the
remaining budget (timeout minus the time the pop consumed).  The code at
line 234 passes the caller's full `timeout` to `wait_for_recv_ready`, so in
this execution the wait blocks for the full 2 units even though only 1 unit
of budget remains: the wait duration is not bounded by the remainder. -/
theorem C2_counterexample :
    (get_recv_buff 2 c2env [0]).readyWaitDuration = some 2 ∧
    0 ≤ c2env.popElapsed ∧ c2env.popElapsed ≤ 2 ∧
    ¬ ((2 : ℚ) ≤ 2 - c2env.popElapsed) := by
  refine ⟨by rfl, by norm_num [c2env], by norm_num [c2env], by norm_num [c2env]⟩

/-- C2 (amended): when the initial non-blocking read yields no data, the
subsequent wait for read-readiness is bounded by the caller's FULL timeout —
the code passes the original `timeout` to `wait_for_recv_ready`, not the
remainder after the queue pop — and exactly one more read attempt is
performed iff readiness is signaled within that budget. -/
theorem C2_amended_thm (timeout : ℚ) (env : RecvEnvT) (id0 : Nat) (rest : List Nat)
    (h1 : env.recv1 ≤ 0) :
    (get_recv_buff timeout env (id0 :: rest)).readyWaitBudget = some timeout ∧
    (∀ d, (get_recv_buff timeout env (id0 :: rest)).readyWaitDuration = some d →
      d ≤ timeout) ∧
    (get_recv_buff timeout env (id0 :: rest)).secondReadDone
      = readyWithin env.readyAt timeout := by
  have h1n : ¬ (0 < env.recv1) := not_lt.mpr h1
  by_cases hr : readyWithin env.readyAt timeout <;>
    constructor <;>
    simp [get_recv_buff, h1n, hr] <;>
    cases env.readyAt with
    | none => simp [waitDur]
    | some t => simp [waitDur, min_le_right]

/-- C2 witness: concrete run of the amended theorem. -/
theorem C2_witness :
    (get_recv_buff 2 c2env [0]).readyWaitBudget = some 2 :=
  (C2_amended_thm 2 c2env 0 [] (by norm_num [c2env])).1

/-! ## Claim C3 -/

/-- C3: when a free buffer is popped (queue non-empty) but both read phases
yield nothing before the timeout, the popped buffer is pushed back onto the
pending queue and the call returns none, so the queue afterwards has exactly
as many free entries as before the call. -/
theorem C3_thm (timeout : ℚ) (env : RecvEnvT) (id0 : Nat) (rest : List Nat)
    (h1 : env.recv1 ≤ 0) (h2 : readyWithin env.readyAt timeout = false) :
    (get_recv_buff timeout env (id0 :: rest)).result = none ∧
    (get_recv_buff timeout env (id0 :: rest)).queueAfter = rest ++ [id0] ∧
    (get_recv_buff timeout env (id0 :: rest)).queueAfter.length
      = (id0 :: rest).length := by
  have h1n : ¬ (0 < env.recv1) := not_lt.mpr h1
  refine ⟨?_, ?_, ?_⟩ <;> simp [get_recv_buff, h1n, h2]

/-- C3 witness: concrete run — pool of two free buffers, no data arrives;
the popped buffer 7 is re-queued behind buffer 8 and the count is back to 2. -/
theorem C3_witness :
    (get_recv_buff 1 c2env [7, 8]).result = none ∧
    (get_recv_buff 1 c2env [7, 8]).queueAfter = [8] ++ [7] ∧
    (get_recv_buff 1 c2env [7, 8]).queueAfter.length = ([7, 8] : List Nat).length :=
  C3_thm 1 c2env 7 [8] (by norm_num [c2env]) (by rfl)

/-! ## Claim C4 -/

/-- Closed form of one `get_send_buff` call, by cases on whether the wait on
the targeted buffer's event succeeds. -/
theorem get_send_buff_eq (s : SendState) (c : Bool) :
    get_send_buff s c =
      (let i := if s.nextIdx = s.pool.length then 0 else s.nextIdx
       let b := s.pool.getD i defaultMsb
       if b.eventSet || c then
         { handle := some { b with eventSet := false, committed := false, len := b.frameSize },
           target := i,
           after := { pool := s.pool.set i
                        { b with eventSet := false, committed := false, len := b.frameSize },
                      nextIdx := i + 1 } }
       else { handle := none, target := i, after := { pool := s.pool.set i b, nextIdx := i } }) := by
  simp only [get_send_buff, Msb.get_new]
  cases hbe :
      (s.pool.getD (if s.nextIdx = s.pool.length then 0 else s.nextIdx) defaultMsb).eventSet
        || c <;>
    simp [hbe]

/-- Round-robin invariant: from any send state whose rotating index is at
most the pool size `n` and congruent to `m` modulo `n`, the successful
acquisitions of any call sequence target indices
`m % n, (m+1) % n, (m+2) % n, ...` in order. -/
theorem runSend_round_robin (n : Nat) (hn : 0 < n) :
    ∀ (cs : List Bool) (s : SendState) (m : Nat),
      s.pool.length = n → s.nextIdx ≤ n → s.nextIdx % n = m % n →
      runSend s cs
        = (List.range (runSend s cs).length).map (fun j => (m + j) % n) := by
  intro cs
  induction cs with
  | nil => intro s m _ _ _; simp [runSend]
  | cons c cs ih =>
    intro s m hlen hidx hmod
    have hin : (if s.nextIdx = s.pool.length then 0 else s.nextIdx) < n := by
      rw [hlen]; by_cases h : s.nextIdx = n <;> simp [h] <;> omega
    have him : (if s.nextIdx = s.pool.length then 0 else s.nextIdx) = m % n := by
      rw [hlen]
      by_cases h : s.nextIdx = n
      · simp only [if_pos h]
        rw [h, Nat.mod_self] at hmod
        exact hmod
      · simp only [if_neg h]
        rw [Nat.mod_eq_of_lt (by omega : s.nextIdx < n)] at hmod
        exact hmod
    simp only [runSend, get_send_buff_eq]
    cases hbe :
        (s.pool.getD (if s.nextIdx = s.pool.length then 0 else s.nextIdx) defaultMsb).eventSet
          || c with
    | false =>
      simp only [hbe, Bool.false_eq_true, if_false, Option.isSome_none]
      apply ih _ m
      · simpa using hlen
      · simpa using Nat.le_of_lt hin
      · simp only []
        rw [Nat.mod_eq_of_lt hin, him]
    | true =>
      simp only [hbe, if_true, Option.isSome_some]
      have hrec := ih
        { pool := s.pool.set (if s.nextIdx = s.pool.length then 0 else s.nextIdx)
            { s.pool.getD (if s.nextIdx = s.pool.length then 0 else s.nextIdx) defaultMsb with
              eventSet := false, committed := false,
              len := (s.pool.getD (if s.nextIdx = s.pool.length then 0 else s.nextIdx)
                defaultMsb).frameSize },
          nextIdx := (if s.nextIdx = s.pool.length then 0 else s.nextIdx) + 1 }
        (m + 1)
        (by simpa using hlen)
        (by simpa using Nat.succ_le_of_lt hin)
        (by
          simp only []
          rw [him]
          exact Nat.ModEq.add_right 1 (Nat.mod_modEq m n))
      simp only [] at hrec ⊢
      rw [List.length_cons, List.range_succ_eq_map, List.map_cons, List.map_map]
      refine List.cons_eq_cons.mpr ⟨?_, ?_⟩
      · rw [him]; simp
      · conv_lhs => rw [hrec]
        apply List.map_congr_left
        intro j _
        simp only [Function.comp_apply]
        congr 1
        omega

/-- The index a `get_send_buff` call targets: the rotating index, wrapped to
0 when it has reached the pool size. -/
theorem get_send_buff_target (s : SendState) (c : Bool) :
    (get_send_buff s c).target = if s.nextIdx = s.pool.length then 0 else s.nextIdx := by
  rw [get_send_buff_eq]
  split <;> (dsimp only; split <;> rfl)

/-- A `get_send_buff` call never changes the pool size. -/
theorem get_send_buff_pool_length (s : SendState) (c : Bool) :
    (get_send_buff s c).after.pool.length = s.pool.length := by
  rw [get_send_buff_eq]
  split <;> (dsimp only; split <;> simp)

/-- On a successful acquire, the rotating index advances by one past the
targeted buffer. -/
theorem get_send_buff_succ (s : SendState) (c : Bool) :
    (get_send_buff s c).handle.isSome = true →
    (get_send_buff s c).after.nextIdx = (get_send_buff s c).target + 1 := by
  rw [get_send_buff_eq]
  split <;> (dsimp only; split <;> intro h <;> simp_all)

/-- On a timed-out acquire, the rotating index is left at the targeted
buffer. -/
theorem get_send_buff_fail (s : SendState) (c : Bool) :
    (get_send_buff s c).handle = none →
    (get_send_buff s c).after.nextIdx = (get_send_buff s c).target := by
  rw [get_send_buff_eq]
  split <;> (dsimp only; split <;> intro h <;> simp_all)

/-- C4: send-buffer indices are handed out in strict round-robin order
`0, 1, ..., n-1, 0, ...` — from a freshly constructed transport the j-th
successful acquisition targets index `j % n` — because `get_send_buff` wraps
the rotating index to 0 when it has reached `num_send_frames` before the
acquire, advances it by one exactly when the acquire succeeds, and leaves it
unchanged on timeout, so the next call retries the same buffer. -/
theorem C4_thm (n f : Nat) (hn : 0 < n) (cs : List Bool) (s : SendState) (c c2 : Bool)
    (hlen : s.pool.length = n) (hidx : s.nextIdx ≤ n) :
    (runSend (freshSendState n f) cs
        = (List.range (runSend (freshSendState n f) cs).length).map (fun j => j % n)) ∧
    ((get_send_buff s c).target = if s.nextIdx = n then 0 else s.nextIdx) ∧
    ((get_send_buff s c).handle.isSome = true →
        (get_send_buff s c).after.nextIdx = (get_send_buff s c).target + 1) ∧
    ((get_send_buff s c).handle = none →
        (get_send_buff s c).after.nextIdx = (get_send_buff s c).target ∧
        (get_send_buff (get_send_buff s c).after c2).target
          = (get_send_buff s c).target) := by
  have hin : (if s.nextIdx = n then 0 else s.nextIdx) < n := by
    by_cases h : s.nextIdx = n <;> simp [h] <;> omega
  have hne : (if s.nextIdx = n then 0 else s.nextIdx) ≠ n := Nat.ne_of_lt hin
  have ht : (get_send_buff s c).target = if s.nextIdx = n then 0 else s.nextIdx := by
    rw [get_send_buff_target, hlen]
  refine ⟨?_, ht, get_send_buff_succ s c, ?_⟩
  · have h0 := runSend_round_robin n hn cs (freshSendState n f) 0
      (by simp [freshSendState]) (by simp [freshSendState]) rfl
    simpa using h0
  · intro h
    have ha := get_send_buff_fail s c h
    refine ⟨ha, ?_⟩
    rw [get_send_buff_target, get_send_buff_pool_length, hlen, ha, ht]
    simp [hne]

/-- C4 witness: a fresh 2-buffer pool worked through three successful
acquisitions visits indices `0 % 2, 1 % 2, 2 % 2 = 0, 1, 0`, and a single
call's target is the wrapped rotating index. -/
theorem C4_witness :
    (runSend (freshSendState 2 5) [true, true, true]
        = (List.range (runSend (freshSendState 2 5) [true, true, true]).length).map
            (fun j => j % 2)) ∧
    ((get_send_buff (freshSendState 2 5) true).target
        = if (freshSendState 2 5).nextIdx = 2 then 0 else (freshSendState 2 5).nextIdx) :=
  ⟨(C4_thm 2 5 (by decide) [true, true, true] (freshSendState 2 5) true true
      (by decide) (by decide)).1,
   (C4_thm 2 5 (by decide) [true, true, true] (freshSendState 2 5) true true
      (by decide) (by decide)).2.1⟩

/-! ## Claim C5 -/

/-- C5: `get_new` on a managed send buffer returns none on timeout and
leaves the buffer — in particular its committed flag and its length —
unchanged; on success it clears the committed flag and resets the length to
the configured frame size; and a buffer committed with payload length `L`
reports, once its completion is observed, a writable length equal to the
frame size (not `L`). -/
theorem C5_thm (b : Msb) (c : Bool) (i L : Nat) :
    (b.eventSet = false → c = false → Msb.get_new b c i = (none, b, i)) ∧
    ((b.eventSet || c) = true →
      (Msb.get_new b c i).1 = some (Msb.get_new b c i).2.1 ∧
      (Msb.get_new b c i).2.1.committed = false ∧
      (Msb.get_new b c i).2.1.len = b.frameSize) ∧
    ((Msb.get_new ((Msb.commit b L).1) true i).2.1.len = b.frameSize) := by
  refine ⟨?_, ?_, ?_⟩
  · intro he hc
    simp [Msb.get_new, he, hc]
  · intro h
    simp [Msb.get_new, h]
  · have hf : ((Msb.commit b L).1).frameSize = b.frameSize := by
      unfold Msb.commit
      by_cases h1 : b.committed <;> by_cases h2 : L = 0 <;> simp [h1, h2]
    simp [Msb.get_new, hf]

/-- C5 witness: a fresh-style uncommitted buffer of frame size 100,
committed with payload length 7 and whose completion is then observed,
reports writable length 100. -/
theorem C5_witness :
    (Msb.get_new ((Msb.commit
        { committed := false, len := 0, eventSet := false, frameSize := 100 } 7).1)
      true 0).2.1.len
      = ({ committed := false, len := 0, eventSet := false, frameSize := 100 } : Msb).frameSize :=
  (C5_thm { committed := false, len := 0, eventSet := false, frameSize := 100 } true 0 7).2.2

/-! ## Claim C7 -/

/-- C7: `commit(length)` is a no-op when the buffer is already committed;
otherwise it marks the buffer committed and, when the length is 0, signals
the completion event immediately and submits no transmission (a positive
length submits one); every send buffer is constructed in this
committed-with-zero-length, event-signaled state, so the first acquire on it
succeeds without any prior transmission. -/
theorem C7_thm (b : Msb) (L f : Nat) :
    (b.committed = true → Msb.commit b L = (b, false)) ∧
    (b.committed = false →
      (Msb.commit b 0).1.committed = true ∧
      (Msb.commit b 0).1.eventSet = true ∧
      (Msb.commit b 0).2 = false) ∧
    (b.committed = false → 0 < L → (Msb.commit b L).2 = true) ∧
    ((Msb.construct f).committed = true ∧ (Msb.construct f).len = 0 ∧
      (Msb.construct f).eventSet = true) ∧
    ((Msb.get_new (Msb.construct f) false 0).1
      = some (Msb.get_new (Msb.construct f) false 0).2.1) := by
  refine ⟨?_, ?_, ?_, ?_, ?_⟩
  · intro h; simp [Msb.commit, h]
  · intro h; simp [Msb.commit, h]
  · intro h hL; simp [Msb.commit, h, Nat.pos_iff_ne_zero.mp hL]
  · simp [Msb.construct, Msb.commit]
  · simp [Msb.construct, Msb.commit, Msb.get_new]

/-- C7 witness: a freshly constructed send buffer of frame size 100 is
committed with zero length and its first acquire succeeds. -/
theorem C7_witness :
    Msb.commit (Msb.construct 100) 42 = (Msb.construct 100, false) :=
  (C7_thm (Msb.construct 100) 42 100).1 (by decide)

/-! ## Claim C6 -/

/-- Environment in which the endpoint delivers a zero-byte datagram that the
FIRST (non-blocking) `::recv` consumes (`recv1 = 0`), after which no further
data arrives. -/
def c6env : RecvEnvT := { popElapsed := 0, recv1 := 0, readyAt := none, recv2 := 0 }

/-- C6 counterexample: the claim says a call during which the endpoint
delivers a zero-byte datagram returns a buffer handle of length 0, not none.
When the zero-byte datagram is consumed by the first non-blocking read, the
`ret > 0` test fails, the code falls through to the readiness wait, and —
with no further data — the call returns none. -/
theorem C6_counterexample :
    c6env.recv1 = 0 ∧
    (get_recv_buff 1 c6env [0]).result = none := by
  constructor <;> rfl

/-- C6 (amended): zero-length data is surfaced to the caller as a valid
buffer holding zero bytes only when it is returned by the SECOND,
post-readiness read (`get_new` is applied to that read's return value
unconditionally); a zero-byte datagram consumed by the first non-blocking
read is treated as "no data" (`ret > 0` fails), and the call proceeds to the
readiness wait, returning none when nothing further arrives. -/
theorem C6_amended_thm (timeout : ℚ) (env : RecvEnvT) (id0 : Nat) (rest : List Nat)
    (h1 : env.recv1 ≤ 0) :
    (readyWithin env.readyAt timeout = true → env.recv2 = 0 →
      (get_recv_buff timeout env (id0 :: rest)).result = some (id0, 0)) ∧
    (readyWithin env.readyAt timeout = false →
      (get_recv_buff timeout env (id0 :: rest)).result = none) := by
  have h1n : ¬ (0 < env.recv1) := not_lt.mpr h1
  constructor
  · intro hr hz
    simp [get_recv_buff, h1n, hr, hz, sizeT]
  · intro hr
    simp [get_recv_buff, h1n, hr]

/-- C6 witness: a zero-byte datagram arriving during the readiness wait is
surfaced as a valid buffer of length 0. -/
theorem C6_witness :
    (get_recv_buff 1
      { popElapsed := 0, recv1 := -1, readyAt := some 0, recv2 := 0 } [3]).result
      = some (3, 0) :=
  (C6_amended_thm 1 { popElapsed := 0, recv1 := -1, readyAt := some 0, recv2 := 0 } 3 []
    (by decide)).1 (by rfl) rfl

/-! ## Claim C8 -/

/-- C8 counterexample: the claim says a managed send buffer's acquire
operation never mutates orchestrator-level state.  But `get_new` takes the
orchestrator's rotating index by reference and executes `index++` itself on
success: acquiring a freshly constructed (event-signaled) buffer with the
index at 3 leaves the index at 4. -/
theorem C8_counterexample :
    (Msb.get_new (Msb.construct 10) false 3).2.2 = 4 ∧
    ¬ ((Msb.get_new (Msb.construct 10) false 3).2.2 = 3) := by
  decide

/-- C8 (amended): the rotating send-buffer index is advanced inside the
managed send buffer's own `get_new` — the orchestrator passes
`_next_send_buff_index` by reference and the buffer increments it on a
successful acquire (leaving it unchanged on timeout); `get_send_buff` itself
only wraps the index and then delegates, its post-call index being exactly
what `get_new` left there. -/
theorem C8_amended_thm (b : Msb) (c : Bool) (i : Nat) (s : SendState) :
    ((Msb.get_new b c i).2.2 = if b.eventSet || c then i + 1 else i) ∧
    ((get_send_buff s c).after.nextIdx
      = (Msb.get_new
          (s.pool.getD (if s.nextIdx = s.pool.length then 0 else s.nextIdx) defaultMsb) c
          (if s.nextIdx = s.pool.length then 0 else s.nextIdx)).2.2) := by
  constructor
  · unfold Msb.get_new
    split <;> rfl
  · rfl

/-! ## Claim C9 -/

/-- C9: transport construction fails with an error — and produces no
transport value — exactly when the configured `num_send_frames` exceeds the
platform's maximum concurrent wait-set size (`WSA_MAXIMUM_WAIT_EVENTS`); for
every configuration within that ceiling the check passes. -/
theorem C9_thm (maxWaitEvents rfs nrf sfs nsf : Nat) :
    ((∃ t, constructTransport maxWaitEvents rfs nrf sfs nsf = Except.ok t)
      ↔ nsf ≤ maxWaitEvents) ∧
    (maxWaitEvents < nsf →
      constructTransport maxWaitEvents rfs nrf sfs nsf
        = Except.error "assertion failed: num_send_frames <= WSA_MAXIMUM_WAIT_EVENTS") := by
  unfold constructTransport
  by_cases h : nsf ≤ maxWaitEvents <;> simp [h]

/-- C9 witness: with the Windows ceiling of 64 events, a 32-frame
configuration constructs successfully and a 100-frame configuration fails
with the assertion error. -/
theorem C9_witness :
    (∃ t, constructTransport 64 1500 32 1500 32 = Except.ok t) ∧
    constructTransport 64 1500 32 1500 100
      = Except.error "assertion failed: num_send_frames <= WSA_MAXIMUM_WAIT_EVENTS" :=
  ⟨(C9_thm 64 1500 32 1500 32).1.mpr (by decide),
   (C9_thm 64 1500 32 1500 100).2 (by decide)⟩

/-! ## Claim C10 -/

/-- C10: when the post-readiness (second) `::recv` attempt returns a
negative error code, `get_recv_buff` still returns a buffer handle — the
negative return value converted to an unsigned length by the implicit
`ssize_t → size_t` conversion in `mrb->get_new(::recv(...))` — instead of
returning none or restoring the buffer to the queue. -/
theorem C10_thm (timeout : ℚ) (env : RecvEnvT) (id0 : Nat) (rest : List Nat)
    (h1 : env.recv1 ≤ 0) (h2 : readyWithin env.readyAt timeout = true)
    (_h3 : env.recv2 < 0) :
    (get_recv_buff timeout env (id0 :: rest)).result = some (id0, sizeT env.recv2) ∧
    (get_recv_buff timeout env (id0 :: rest)).queueAfter = rest := by
  have h1n : ¬ (0 < env.recv1) := not_lt.mpr h1
  constructor <;> simp [get_recv_buff, h1n, h2]

/-- Environment for the C10 witness: first read would-block (`-1`), socket
becomes readable at once, second read fails with `SOCKET_ERROR` (`-1`). -/
def c10env : RecvEnvT := { popElapsed := 0, recv1 := -1, readyAt := some 0, recv2 := -1 }

/-- C10 witness: the call returns buffer 7 with the length `(size_t)(-1)`,
i.e. `2^64 - 1`, and the buffer is not restored to the queue. -/
theorem C10_witness :
    ((get_recv_buff 1 c10env [7]).result = some (7, sizeT (-1)) ∧
      (get_recv_buff 1 c10env [7]).queueAfter = []) ∧
    sizeT (-1) = 18446744073709551615 :=
  ⟨C10_thm 1 c10env 7 [] (by decide) (by rfl) (by decide), by decide⟩
